import Mathlib

/-!
Verification development for the video-game sales analysis pipeline
(`src/video_game_analysis.py`).

The program loads a pipe-delimited table of video game sales records,
keeps the columns publisher, release_date, na_sales, total_sales,
derives a year column, filters to release years 2006..2015, picks the
publisher with the highest summed North-American sales (SQL sum
semantics: nulls skipped, an all-null group sums to null; descending
order places null totals last), and then aggregates that publisher's
rows per year (round(sum(na_sales), 2) and round(sum(total_sales), 2)),
ordered ascending by year.  It prints the best publisher, the count of
that publisher's rows with null na_sales, and the yearly table, and
returns the pair (best publisher, yearly table) to the caller.

Numeric sales values are modelled as rationals; nullable fields are
`Option`; the engine's unstable descending sort followed by `limit(1)`
is modelled both by a deterministic representative (`pickTopAux`) and by
a relation (`RunsAnalysis`) admitting every maximal choice.  The Python
crash on `first()` returning `None` for an empty filtered table is
modelled as the `none` outcome of the analysis.
-/

set_option maxRecDepth 4000

/-- A calendar date as stored in the `release_date` column. -/
structure SDate where
  year : Nat
  month : Nat
  day : Nat
deriving DecidableEq, Repr

/-- One input record after the Loader's projection to the four required
columns.  Every field is nullable, as in the declared schema. -/
structure Row where
  publisher : Option String
  release_date : Option SDate
  na_sales : Option ℚ
  total_sales : Option ℚ
deriving DecidableEq, Repr

/-- A record of `sales0615DF`: the year column has been derived (and is
non-null, since null release dates do not survive the year filter). -/
structure RowY where
  publisher : Option String
  year : Nat
  na_sales : Option ℚ
  total_sales : Option ℚ
deriving DecidableEq, Repr

/-- One row of the yearly aggregation `bestNAPublisherSales`: the
aggregates are null when every summand in the group is null. -/
structure YearlyRow where
  year : Nat
  na_total : Option ℚ
  global_total : Option ℚ
deriving DecidableEq, Repr

/-- The three observables the Analyzer computes (the publisher, the
printed diagnostic count, and the yearly table). -/
structure AnalysisOutput where
  bestNAPublisher : Option String
  titlesWithMissingSalesData : Nat
  bestNAPublisherSales : List YearlyRow
deriving DecidableEq, Repr

/-- The year-window predicate of the filter
`(year >= 2006) & (year <= 2015)`. -/
def inWindow (y : Nat) : Bool :=
  decide (2006 ≤ y ∧ y ≤ 2015)

/-- `sales0615DF`: derive `year` from `release_date` and keep the rows
whose year lies in the window; a null `release_date` yields a null year,
which fails the comparison and is filtered out. -/
def sales0615 (rows : List Row) : List RowY :=
  rows.filterMap fun r =>
    match r.release_date with
    | none => none
    | some d =>
        if inWindow d.year then
          some ⟨r.publisher, d.year, r.na_sales, r.total_sales⟩
        else
          none

/-- SQL aggregate `sum` over a nullable column: null values are skipped
and a sum with no non-null summand is null. -/
def sparkSum : List (Option ℚ) → Option ℚ
  | [] => none
  | none :: xs => sparkSum xs
  | some v :: xs => some (v + (sparkSum xs).getD 0)

/-- Spark's `round(·, 2)` (HALF_UP: ties round away from zero). -/
def round2 (q : ℚ) : ℚ :=
  if 0 ≤ q then ((⌊q * 100 + 1 / 2⌋ : ℤ) : ℚ) / 100
  else -(((⌊-q * 100 + 1 / 2⌋ : ℤ) : ℚ) / 100)

/-- The distinct publisher values of a table: the grouping keys of
`groupBy("publisher")` (the null publisher forms a group of its own). -/
def groupKeys (l : List RowY) : List (Option String) :=
  (l.map RowY.publisher).dedup

/-- The rows of one publisher group. -/
def pubRows (l : List RowY) (p : Option String) : List RowY :=
  l.filter fun r => decide (r.publisher = p)

/-- `total_na_sales` of one publisher group: `sum("na_sales")`. -/
def pubTotal (l : List RowY) (p : Option String) : Option ℚ :=
  sparkSum ((pubRows l p).map RowY.na_sales)

/-- Ranking of nullable totals used by
`orderBy(col("total_na_sales").desc())`: descending order places null
totals last, so null ranks below every non-null total. -/
def optLeNL : Option ℚ → Option ℚ → Bool
  | none, _ => true
  | some _, none => false
  | some a, some b => decide (a ≤ b)

/-- Keep the better of a candidate key and the best key seen so far
(in the nulls-last descending ranking of the totals). -/
def pickBetter (l : List RowY) (p : Option String) : Option (Option String) → Option String
  | none => p
  | some q => if optLeNL (pubTotal l p) (pubTotal l q) then q else p

/-- One maximal group key (the row surviving `orderBy(desc).limit(1)`),
chosen deterministically as a representative of the engine's
tie-dependent choice. -/
def pickTopAux (l : List RowY) : List (Option String) → Option (Option String)
  | [] => none
  | p :: ps => some (pickBetter l p (pickTopAux l ps))

/-- `bestNADF`: the filter `col("publisher") == bestNAPublisher`.  When
the selected publisher is null the equality comparison is null for every
row, so no row passes. -/
def bestNADF_S (l : List RowY) (b : Option String) : List RowY :=
  match b with
  | none => []
  | some s => pubRows l (some s)

/-- `titlesWithMissingSalesData`: count of rows with null `na_sales`. -/
def missingCount (S : List RowY) : Nat :=
  (S.filter fun r => r.na_sales.isNone).length

/-- Insert into an ascending list (used to model `orderBy("year")`). -/
def insertAsc (y : Nat) : List Nat → List Nat
  | [] => [y]
  | x :: xs => if y ≤ x then y :: x :: xs else x :: insertAsc y xs

/-- Ascending sort by insertion. -/
def sortAsc (l : List Nat) : List Nat :=
  l.foldr insertAsc []

/-- The distinct year values of a table: the keys of `groupBy("year")`. -/
def yearKeys (S : List RowY) : List Nat :=
  (S.map RowY.year).dedup

/-- The rows of one year group. -/
def yearRows (S : List RowY) (y : Nat) : List RowY :=
  S.filter fun r => decide (r.year = y)

/-- `bestNAPublisherSales`: group by year, aggregate
`round(sum(na_sales), 2)` and `round(sum(total_sales), 2)`, order
ascending by year. -/
def yearly (S : List RowY) : List YearlyRow :=
  (sortAsc (yearKeys S)).map fun y =>
    ⟨y, (sparkSum ((yearRows S y).map RowY.na_sales)).map round2,
        (sparkSum ((yearRows S y).map RowY.total_sales)).map round2⟩

/-- The tail of the analysis once the best publisher has been selected. -/
def analyzeFrom (b : Option String) (l : List RowY) : AnalysisOutput :=
  ⟨b, missingCount (bestNADF_S l b), yearly (bestNADF_S l b)⟩

/-- The analysis on the filtered table.  `none` models the Python crash:
on an empty table `first()` returns `None` and `None["publisher"]`
raises a `TypeError`. -/
def analyzeF (l : List RowY) : Option AnalysisOutput :=
  match pickTopAux l (groupKeys l) with
  | none => none
  | some b => some (analyzeFrom b l)

/-- `analyze_publisher_sales`, as a function of the loaded table. -/
def analyze_publisher_sales (rows : List Row) : Option AnalysisOutput :=
  analyzeF (sales0615 rows)

/-- The value the Python function `return`s to its caller: the pair
`(bestNAPublisher, bestNAPublisherSales)`.  The missing-data count is
printed but not returned. -/
def analyze_returns (rows : List Row) : Option (Option String × List YearlyRow) :=
  (analyze_publisher_sales rows).map fun o =>
    (o.bestNAPublisher, o.bestNAPublisherSales)

/-- `b` is a valid outcome of `orderBy(desc).limit(1)` on the publisher
totals: a group key whose total is maximal in the nulls-last ranking.
With ties, the engine's unstable sort may surface any of them. -/
def isTopKeyB (l : List RowY) (b : Option String) : Bool :=
  decide (b ∈ groupKeys l) &&
    (groupKeys l).all fun p => optLeNL (pubTotal l p) (pubTotal l b)

/-- Nondeterministic semantics of one run of the analysis: either the
filtered table is empty and the run aborts (`none`, the crash), or some
maximal publisher group is selected and the rest is deterministic. -/
def RunsAnalysis (rows : List Row) (out : Option AnalysisOutput) : Prop :=
  (sales0615 rows = [] ∧ out = none) ∨
    ∃ b, isTopKeyB (sales0615 rows) b = true ∧
      out = some (analyzeFrom b (sales0615 rows))

/-- The in-range rows attributed to a chosen best publisher
(the subset `S` of the spec). -/
def inRangeBest (rows : List Row) (b : Option String) : List RowY :=
  bestNADF_S (sales0615 rows) b

/-- Written from the spec's words: per-publisher total North-American
sales as the plain sum of the non-null `na_sales` values. -/
def specPubTotal (l : List RowY) (p : Option String) : ℚ :=
  ((pubRows l p).filterMap RowY.na_sales).sum

/-- Written from the spec's words: per-year aggregate
`round(sum(column), 2)` with nulls skipped; a year whose summands are
all null gets a null aggregate (the SQL behaviour the code inherits). -/
def specYearTotal (S : List RowY) (y : Nat) (f : RowY → Option ℚ) : Option ℚ :=
  if (yearRows S y).filterMap f = [] then none
  else some (round2 ((yearRows S y).filterMap f).sum)

/-- Written from the spec's words: group `S` by year, aggregate both
sales columns, order ascending by year. -/
def yearlySpec (S : List RowY) : List YearlyRow :=
  (sortAsc (yearKeys S)).map fun y =>
    ⟨y, specYearTotal S y RowY.na_sales, specYearTotal S y RowY.total_sales⟩

/-- Written from the spec's words: a raw record survives the window
filter exactly when its release date is present and its year lies in
2006..2015 (both ends inclusive). -/
def keepB (r : Row) : Bool :=
  match r.release_date with
  | none => false
  | some d => decide (2006 ≤ d.year ∧ d.year ≤ 2015)

/-- Attach the derived year to a record that survived the filter. -/
def toRowY (r : Row) : RowY :=
  ⟨r.publisher, (r.release_date.map SDate.year).getD 0, r.na_sales, r.total_sales⟩

/-- The sum of the (non-null) `na_total` values over the yearly table. -/
def yearlyNaTotalSum (out : AnalysisOutput) : ℚ :=
  (out.bestNAPublisherSales.filterMap YearlyRow.na_total).sum

/-- A one-row table whose single record is in range. -/
def c2rowsA : List Row :=
  [⟨some "A", some ⟨2010, 1, 1⟩, some 5, some 5⟩]

/-- `c2rowsA` plus an extra record with null sales figures: the extra
record changes the missing-data count but not the returned pair. -/
def c2rowsB : List Row :=
  [⟨some "A", some ⟨2010, 1, 1⟩, some 5, some 5⟩,
   ⟨some "A", some ⟨2010, 2, 2⟩, none, none⟩]

/-- Publisher A with a negative total against publisher B all of whose
`na_sales` are null. -/
def c3rows : List Row :=
  [⟨some "A", some ⟨2010, 1, 1⟩, some (-1), some (-1)⟩,
   ⟨some "B", some ⟨2010, 1, 1⟩, none, none⟩]

/-- The spec's own scenario: A dominates in range, C is outside the
window. -/
def c3wrows : List Row :=
  [⟨some "A", some ⟨2007, 1, 1⟩, some 10, some 10⟩,
   ⟨some "A", some ⟨2008, 1, 1⟩, some 20, some 20⟩,
   ⟨some "B", some ⟨2009, 1, 1⟩, some 5, some 5⟩,
   ⟨some "C", some ⟨2020, 1, 1⟩, some 100, some 100⟩]

/-- An in-range table. -/
def c4rowsA : List Row :=
  [⟨some "A", some ⟨2010, 1, 1⟩, some 1, some 2⟩]

/-- `c4rowsA` extended with an out-of-window record and a record with a
null release date. -/
def c4rowsB : List Row :=
  [⟨some "A", some ⟨2010, 1, 1⟩, some 1, some 2⟩,
   ⟨some "C", some ⟨2020, 1, 1⟩, some 100, some 100⟩,
   ⟨some "D", none, some 50, some 50⟩]

/-- The spec's null-handling scenario: one record with null `na_sales`
in 2010 and one fully populated record in 2011. -/
def c5rows : List Row :=
  [⟨some "A", some ⟨2010, 1, 1⟩, none, some 15⟩,
   ⟨some "A", some ⟨2011, 1, 1⟩, some 7, some 8⟩]

/-- Same scenario, used for the missing-count claim. -/
def c6rows : List Row :=
  [⟨some "A", some ⟨2010, 1, 1⟩, none, some 15⟩,
   ⟨some "A", some ⟨2011, 1, 1⟩, some 7, some 8⟩]

/-- Two publishers tied on total North-American sales. -/
def c7rows : List Row :=
  [⟨some "A", some ⟨2010, 1, 1⟩, some 3, some 3⟩,
   ⟨some "B", some ⟨2010, 1, 1⟩, some 3, some 3⟩]

/-- A single publisher, hence a unique maximal group. -/
def c7wrows : List Row :=
  [⟨some "A", some ⟨2010, 1, 1⟩, some 3, some 3⟩]

/-- Two years each summing to 0.005, which rounds up to 0.01 per year. -/
def c8rows : List Row :=
  [⟨some "A", some ⟨2007, 1, 1⟩, some (1 / 200), some (1 / 200)⟩,
   ⟨some "A", some ⟨2008, 1, 1⟩, some (1 / 200), some (1 / 200)⟩]

/-- The analysis output on `c8rows`. -/
def c8out : AnalysisOutput :=
  ⟨some "A", 0,
   [⟨2007, some (1 / 100), some (1 / 100)⟩, ⟨2008, some (1 / 100), some (1 / 100)⟩]⟩

/-- Two years whose sums are exactly representable with 2 decimals. -/
def c8wrows : List Row :=
  [⟨some "A", some ⟨2010, 1, 1⟩, some (1 / 4), some (1 / 4)⟩,
   ⟨some "A", some ⟨2011, 1, 1⟩, some (3 / 4), some (3 / 4)⟩]

/-- A table whose only (and hence top) publisher group is the null
publisher. -/
def c9rows : List Row :=
  [⟨none, some ⟨2010, 1, 1⟩, some 10, some 10⟩]

/-- A 2010 record whose `na_sales` is null (total present) and a 2011
record whose `total_sales` is null (na present). -/
def c10rows : List Row :=
  [⟨some "A", some ⟨2010, 1, 1⟩, none, some 15⟩,
   ⟨some "A", some ⟨2011, 1, 1⟩, some 7, none⟩]

lemma sparkSum_spec (L : List (Option ℚ)) :
    sparkSum L = if L.filterMap id = [] then none
      else some (L.filterMap id).sum := by
  induction L with
  | nil => rfl
  | cons x xs ih =>
    cases x with
    | none =>
      rw [show sparkSum (none :: xs) = sparkSum xs from rfl, ih]
      simp
    | some v =>
      rw [show sparkSum (some v :: xs) = some (v + (sparkSum xs).getD 0) from rfl, ih]
      by_cases h : xs.filterMap id = []
      · simp [h]
      · simp [h]

lemma sparkSum_eq_none (L : List (Option ℚ)) (h : ∀ x ∈ L, x = none) :
    sparkSum L = none := by
  induction L with
  | nil => rfl
  | cons x xs ih =>
    have hx := h x (List.mem_cons_self x xs)
    subst hx
    exact ih fun y hy => h y (List.mem_cons_of_mem _ hy)

lemma sparkSum_filter_isSome (L : List (Option ℚ)) :
    sparkSum L = sparkSum (L.filter Option.isSome) := by
  induction L with
  | nil => rfl
  | cons x xs ih =>
    cases x with
    | none => simpa [List.filter_cons, sparkSum] using ih
    | some v => simp [List.filter_cons, sparkSum, ih]

lemma optLeNL_refl (a : Option ℚ) : optLeNL a a = true := by
  cases a <;> simp [optLeNL]

lemma optLeNL_total (a b : Option ℚ) : optLeNL a b = true ∨ optLeNL b a = true := by
  cases a with
  | none => exact Or.inl rfl
  | some x =>
    cases b with
    | none => exact Or.inr rfl
    | some y =>
      rcases le_total x y with h | h
      · exact Or.inl (by simpa [optLeNL])
      · exact Or.inr (by simpa [optLeNL])

lemma optLeNL_trans (a b c : Option ℚ) (hab : optLeNL a b = true)
    (hbc : optLeNL b c = true) : optLeNL a c = true := by
  cases a with
  | none => rfl
  | some x =>
    cases b with
    | none => exact absurd hab (by simp [optLeNL])
    | some y =>
      cases c with
      | none => exact absurd hbc (by simp [optLeNL])
      | some z =>
        simp only [optLeNL, decide_eq_true_eq] at hab hbc ⊢
        exact le_trans hab hbc

lemma pickTopAux_eq_none (l : List RowY) (ks : List (Option String)) :
    pickTopAux l ks = none ↔ ks = [] := by
  cases ks with
  | nil => simp [pickTopAux]
  | cons p ps => simp [pickTopAux]

lemma pickTopAux_mem (l : List RowY) (ks : List (Option String)) (b : Option String)
    (h : pickTopAux l ks = some b) : b ∈ ks := by
  induction ks with
  | nil => exact absurd h (by simp [pickTopAux])
  | cons p ps ih =>
    simp only [pickTopAux] at h
    injection h with h
    cases hps : pickTopAux l ps with
    | none =>
      rw [hps, show pickBetter l p none = p from rfl] at h
      subst h
      exact List.mem_cons_self _ _
    | some q =>
      rw [hps, show pickBetter l p (some q)
            = if optLeNL (pubTotal l p) (pubTotal l q) then q else p from rfl] at h
      by_cases hle : optLeNL (pubTotal l p) (pubTotal l q) = true
      · rw [if_pos hle] at h
        subst h
        exact List.mem_cons_of_mem _ (ih hps)
      · rw [if_neg hle] at h
        subst h
        exact List.mem_cons_self _ _

lemma pickTopAux_max (l : List RowY) (ks : List (Option String)) :
    ∀ b, pickTopAux l ks = some b →
      ∀ p ∈ ks, optLeNL (pubTotal l p) (pubTotal l b) = true := by
  induction ks with
  | nil => intro b h; exact absurd h (by simp [pickTopAux])
  | cons a ps ih =>
    intro b h
    simp only [pickTopAux] at h
    injection h with h
    cases hps : pickTopAux l ps with
    | none =>
      rw [hps, show pickBetter l a none = a from rfl] at h
      subst h
      have hnil : ps = [] := (pickTopAux_eq_none l ps).mp hps
      subst hnil
      intro p hp
      rcases List.mem_cons.mp hp with rfl | hp
      · exact optLeNL_refl _
      · exact absurd hp (List.not_mem_nil p)
    | some q =>
      rw [hps, show pickBetter l a (some q)
            = if optLeNL (pubTotal l a) (pubTotal l q) then q else a from rfl] at h
      by_cases hle : optLeNL (pubTotal l a) (pubTotal l q) = true
      · rw [if_pos hle] at h
        subst h
        intro p hp
        rcases List.mem_cons.mp hp with rfl | hp
        · exact hle
        · exact ih q hps p hp
      · rw [if_neg hle] at h
        subst h
        intro p hp
        rcases List.mem_cons.mp hp with rfl | hp
        · exact optLeNL_refl _
        · have hpq := ih q hps p hp
          have hqa : optLeNL (pubTotal l q) (pubTotal l a) = true :=
            (optLeNL_total (pubTotal l a) (pubTotal l q)).resolve_left hle
          exact optLeNL_trans _ _ _ hpq hqa

lemma groupKeys_nil_iff (l : List RowY) : groupKeys l = [] ↔ l = [] := by
  unfold groupKeys
  rw [List.dedup_eq_nil, List.map_eq_nil_iff]

lemma isTop_mem (l : List RowY) (b : Option String) (h : isTopKeyB l b = true) :
    b ∈ groupKeys l := by
  have h1 := ((Bool.and_eq_true _ _).mp h).1
  exact of_decide_eq_true h1

lemma isTop_le (l : List RowY) (b : Option String) (h : isTopKeyB l b = true) :
    ∀ p ∈ groupKeys l, optLeNL (pubTotal l p) (pubTotal l b) = true := by
  have h2 := ((Bool.and_eq_true _ _).mp h).2
  intro p hp
  exact List.all_eq_true.mp h2 p hp

lemma pickTop_isTop (l : List RowY) (b : Option String)
    (h : pickTopAux l (groupKeys l) = some b) : isTopKeyB l b = true := by
  apply (Bool.and_eq_true _ _).mpr
  refine ⟨decide_eq_true (pickTopAux_mem l _ b h), List.all_eq_true.mpr ?_⟩
  intro p hp
  exact pickTopAux_max l _ b h p hp

lemma runs_analyze (rows : List Row) :
    RunsAnalysis rows (analyze_publisher_sales rows) := by
  unfold RunsAnalysis analyze_publisher_sales analyzeF
  cases h : pickTopAux (sales0615 rows) (groupKeys (sales0615 rows)) with
  | none =>
    exact Or.inl ⟨(groupKeys_nil_iff _).mp ((pickTopAux_eq_none _ _).mp h), rfl⟩
  | some b =>
    exact Or.inr ⟨b, pickTop_isTop _ b h, rfl⟩

lemma analyze_some (rows : List Row) (out : AnalysisOutput)
    (h : analyze_publisher_sales rows = some out) :
    ∃ b, pickTopAux (sales0615 rows) (groupKeys (sales0615 rows)) = some b ∧
      out = analyzeFrom b (sales0615 rows) := by
  unfold analyze_publisher_sales analyzeF at h
  cases hp : pickTopAux (sales0615 rows) (groupKeys (sales0615 rows)) with
  | none => rw [hp] at h; exact Option.noConfusion h
  | some b => rw [hp] at h; injection h with h; exact ⟨b, rfl, h.symm⟩

lemma filterMap_of_map {α β γ : Type} (f : α → β) (g : β → Option γ) (l : List α) :
    (l.map f).filterMap g = l.filterMap fun a => g (f a) := by
  induction l with
  | nil => rfl
  | cons a t ih => cases hg : g (f a) <;> simp [List.filterMap_cons, hg, ih]

lemma sum_filterMap_getD (h : Nat → Option ℚ) (l : List Nat) :
    (l.filterMap h).sum = (l.map fun y => (h y).getD 0).sum := by
  induction l with
  | nil => rfl
  | cons a t ih => cases hh : h a <;> simp [List.filterMap_cons, hh, ih]

lemma floor_half : ⌊(1 : ℚ) / 2⌋ = 0 := by
  rw [Int.floor_eq_zero_iff, Set.mem_Ico]
  constructor <;> norm_num

lemma round2_intdiv (z : ℤ) : round2 ((z : ℚ) / 100) = (z : ℚ) / 100 := by
  unfold round2
  by_cases hz : 0 ≤ (z : ℚ) / 100
  · rw [if_pos hz]
    rw [show (z : ℚ) / 100 * 100 + 1 / 2 = (z : ℚ) + 1 / 2 by field_simp]
    rw [Int.floor_int_add, floor_half, add_zero]
  · rw [if_neg hz]
    rw [show -((z : ℚ) / 100) * 100 + 1 / 2 = ((-z : ℤ) : ℚ) + 1 / 2 by
      push_cast
      field_simp
      ring]
    rw [Int.floor_int_add, floor_half, add_zero]
    push_cast
    ring

lemma round2_fix_exists (q : ℚ) (h : round2 q = q) : ∃ z : ℤ, q = (z : ℚ) / 100 := by
  unfold round2 at h
  by_cases hq : 0 ≤ q
  · rw [if_pos hq] at h
    exact ⟨⌊q * 100 + 1 / 2⌋, h.symm⟩
  · rw [if_neg hq] at h
    refine ⟨-⌊-q * 100 + 1 / 2⌋, ?_⟩
    conv_lhs => rw [← h]
    push_cast
    ring

lemma round2_fix_add (a b : ℚ) (ha : round2 a = a) (hb : round2 b = b) :
    round2 (a + b) = a + b := by
  obtain ⟨za, hza⟩ := round2_fix_exists a ha
  obtain ⟨zb, hzb⟩ := round2_fix_exists b hb
  subst hza
  subst hzb
  rw [show (za : ℚ) / 100 + (zb : ℚ) / 100 = ((za + zb : ℤ) : ℚ) / 100 by push_cast; ring]
  exact round2_intdiv _

lemma round2_zero : round2 0 = 0 := by
  have h := round2_intdiv 0
  simpa using h

lemma round2_fix_sum (L : List ℚ) (h : ∀ x ∈ L, round2 x = x) :
    round2 L.sum = L.sum := by
  induction L with
  | nil => simpa using round2_zero
  | cons x xs ih =>
    rw [List.sum_cons]
    exact round2_fix_add _ _ (h x (List.mem_cons_self _ _))
      (ih fun y hy => h y (List.mem_cons_of_mem _ hy))

lemma mem_insertAsc (y x : Nat) (l : List Nat) :
    x ∈ insertAsc y l ↔ x = y ∨ x ∈ l := by
  induction l with
  | nil => simp [insertAsc]
  | cons a t ih =>
    by_cases h : y ≤ a
    · simp [insertAsc, h]
    · simp only [insertAsc, if_neg h, List.mem_cons, ih]
      tauto

lemma insertAsc_sorted (y : Nat) (l : List Nat) (h : List.Sorted (· ≤ ·) l) :
    List.Sorted (· ≤ ·) (insertAsc y l) := by
  induction l with
  | nil => simp [insertAsc]
  | cons a t ih =>
    rw [List.sorted_cons] at h
    by_cases hya : y ≤ a
    · rw [show insertAsc y (a :: t) = y :: a :: t from by simp [insertAsc, hya]]
      rw [List.sorted_cons]
      refine ⟨?_, List.sorted_cons.mpr h⟩
      intro b hb
      rcases List.mem_cons.mp hb with rfl | hb
      · exact hya
      · exact le_trans hya (h.1 b hb)
    · rw [show insertAsc y (a :: t) = a :: insertAsc y t from by simp [insertAsc, hya]]
      rw [List.sorted_cons]
      refine ⟨?_, ih h.2⟩
      intro b hb
      rcases (mem_insertAsc y b t).mp hb with rfl | hb
      · exact le_of_not_le hya
      · exact h.1 b hb

lemma insertAsc_perm (y : Nat) (l : List Nat) : List.Perm (insertAsc y l) (y :: l) := by
  induction l with
  | nil => exact List.Perm.refl _
  | cons a t ih =>
    by_cases h : y ≤ a
    · rw [show insertAsc y (a :: t) = y :: a :: t from by simp [insertAsc, h]]
    · rw [show insertAsc y (a :: t) = a :: insertAsc y t from by simp [insertAsc, h]]
      exact (ih.cons a).trans (List.Perm.swap y a t)

lemma sortAsc_perm (l : List Nat) : List.Perm (sortAsc l) l := by
  induction l with
  | nil => exact List.Perm.refl _
  | cons a t ih =>
    rw [show sortAsc (a :: t) = insertAsc a (sortAsc t) from rfl]
    exact (insertAsc_perm a (sortAsc t)).trans (ih.cons a)

lemma sortAsc_sorted (l : List Nat) : List.Sorted (· ≤ ·) (sortAsc l) := by
  induction l with
  | nil => exact List.sorted_nil
  | cons a t ih => exact insertAsc_sorted a (sortAsc t) ih

lemma sum_filter_split {α : Type} (p : α → Bool) (g : α → Option ℚ) (l : List α) :
    ((l.filter p).filterMap g).sum + ((l.filter fun a => !(p a)).filterMap g).sum
      = (l.filterMap g).sum := by
  induction l with
  | nil => simp
  | cons a t ih =>
    cases ha : p a with
    | true =>
      cases hg : g a with
      | none => simpa [List.filter_cons, ha, List.filterMap_cons, hg] using ih
      | some v =>
        simp only [List.filter_cons, ha, List.filterMap_cons, hg, Bool.not_true,
          if_pos, if_neg, List.sum_cons, Bool.false_eq_true, ite_false, ite_true]
        rw [← ih]
        ring
    | false =>
      cases hg : g a with
      | none => simpa [List.filter_cons, ha, List.filterMap_cons, hg] using ih
      | some v =>
        simp only [List.filter_cons, ha, List.filterMap_cons, hg, Bool.not_false,
          List.sum_cons, Bool.false_eq_true, ite_false, ite_true]
        rw [← ih]
        ring

lemma filter_filter_sub {α : Type} (p q : α → Bool) (l : List α)
    (h : ∀ a, q a = true → p a = true) :
    (l.filter p).filter q = l.filter q := by
  induction l with
  | nil => rfl
  | cons a t ih =>
    cases hq : q a with
    | true =>
      have hp := h a hq
      simp [List.filter_cons, hp, hq, ih]
    | false =>
      cases hp : p a with
      | true => simp [List.filter_cons, hp, hq, ih]
      | false => simp [List.filter_cons, hp, hq, ih]

lemma fiber_sum (g : RowY → Option ℚ) :
    ∀ (keys : List Nat) (l : List RowY), keys.Nodup →
      (∀ r ∈ l, r.year ∈ keys) →
      (keys.map fun y =>
        ((l.filter fun r => decide (r.year = y)).filterMap g).sum).sum
        = (l.filterMap g).sum := by
  intro keys
  induction keys with
  | nil =>
    intro l _ hcov
    have hl : l = [] := by
      cases l with
      | nil => rfl
      | cons r t => exact absurd (hcov r (List.mem_cons_self _ _)) (List.not_mem_nil _)
    subst hl
    simp
  | cons y ys ih =>
    intro l hnd hcov
    rw [List.map_cons, List.sum_cons]
    have hmap : (ys.map fun y' =>
        ((l.filter fun r => decide (r.year = y')).filterMap g).sum)
        = ys.map fun y' =>
          (((l.filter fun r => !(decide (r.year = y))).filter
            fun r => decide (r.year = y')).filterMap g).sum := by
      apply List.map_congr_left
      intro y' hy'
      rw [filter_filter_sub (fun r => !(decide (r.year = y)))
        (fun r => decide (r.year = y')) l ?_]
      intro r hr
      have hr' : r.year = y' := of_decide_eq_true hr
      have hne : y' ≠ y := by
        intro he
        subst he
        exact (List.nodup_cons.mp hnd).1 hy'
      simp [hr', hne]
    have hcov2 : ∀ r ∈ (l.filter fun r => !(decide (r.year = y))), r.year ∈ ys := by
      intro r hr
      rcases List.mem_filter.mp hr with ⟨hrl, hrk⟩
      rcases List.mem_cons.mp (hcov r hrl) with he | hm
      · exfalso
        rw [he] at hrk
        simp at hrk
      · exact hm
    rw [hmap, ih (l.filter fun r => !(decide (r.year = y)))
      (List.nodup_cons.mp hnd).2 hcov2]
    exact sum_filter_split (fun r => decide (r.year = y)) g l

lemma filterMap_id_of_map {α γ : Type} (f : α → Option γ) (T : List α) :
    (T.map f).filterMap id = T.filterMap f := by
  induction T with
  | nil => rfl
  | cons a t ih => cases hg : f a <;> simp [List.filterMap_cons, hg, ih]

lemma sparkSum_map (f : RowY → Option ℚ) (T : List RowY) :
    sparkSum (T.map f)
      = if T.filterMap f = [] then none else some (T.filterMap f).sum := by
  rw [sparkSum_spec, filterMap_id_of_map]

lemma sparkSum_keep_some (T : List RowY) (f : RowY → Option ℚ) :
    sparkSum (T.map f)
      = sparkSum ((T.filter fun r => (f r).isSome).map f) := by
  induction T with
  | nil => rfl
  | cons r t ih =>
    cases hf : f r with
    | none => simp [sparkSum, List.filter_cons, hf, ih]
    | some v => simp [sparkSum, List.filter_cons, hf, ih]

lemma sparkSum_round_eq_specYearTotal (S : List RowY) (y : Nat) (f : RowY → Option ℚ) :
    (sparkSum ((yearRows S y).map f)).map round2 = specYearTotal S y f := by
  unfold specYearTotal
  rw [sparkSum_map]
  by_cases hemp : (yearRows S y).filterMap f = []
  · rw [if_pos hemp, if_pos hemp]
    rfl
  · rw [if_neg hemp, if_neg hemp]
    rfl

lemma yearly_eq_yearlySpec (S : List RowY) : yearly S = yearlySpec S := by
  unfold yearly yearlySpec
  apply List.map_congr_left
  intro y hy
  rw [sparkSum_round_eq_specYearTotal, sparkSum_round_eq_specYearTotal]

lemma yearly_years (S : List RowY) :
    (yearly S).map YearlyRow.year = sortAsc (yearKeys S) := by
  unfold yearly
  rw [List.map_map]
  conv_rhs => rw [← List.map_id (sortAsc (yearKeys S))]
  apply List.map_congr_left
  intro y hy
  rfl

lemma yearly_sorted (S : List RowY) :
    List.Sorted (· ≤ ·) ((yearly S).map YearlyRow.year) := by
  rw [yearly_years]
  exact sortAsc_sorted _

lemma sales0615_eq (rows : List Row) :
    sales0615 rows = (rows.filter keepB).map toRowY := by
  induction rows with
  | nil => rfl
  | cons r t ih =>
    cases hd : r.release_date with
    | none =>
      have h1 : sales0615 (r :: t) = sales0615 t := by
        unfold sales0615
        rw [List.filterMap_cons]
        simp [hd]
      have hk : keepB r = false := by
        unfold keepB
        rw [hd]
      rw [h1, List.filter_cons, hk, ih]
      simp
    | some d =>
      have hk : keepB r = inWindow d.year := by
        unfold keepB inWindow
        rw [hd]
      cases hw : inWindow d.year with
      | false =>
        have h1 : sales0615 (r :: t) = sales0615 t := by
          unfold sales0615
          rw [List.filterMap_cons]
          simp [hd, hw]
        rw [h1, List.filter_cons, hk, hw, ih]
        simp
      | true =>
        have h1 : sales0615 (r :: t)
            = ⟨r.publisher, d.year, r.na_sales, r.total_sales⟩ :: sales0615 t := by
          unfold sales0615
          rw [List.filterMap_cons]
          simp [hd, hw]
        have h2 : toRowY r = ⟨r.publisher, d.year, r.na_sales, r.total_sales⟩ := by
          unfold toRowY
          rw [hd]
          rfl
        rw [h1, List.filter_cons, hk, hw, ih]
        simp [h2]

lemma yearly_na_sum (S : List RowY)
    (hex : ∀ y ∈ yearKeys S,
      round2 (((yearRows S y).filterMap RowY.na_sales).sum)
        = ((yearRows S y).filterMap RowY.na_sales).sum) :
    ((yearly S).filterMap YearlyRow.na_total).sum
      = round2 ((S.filterMap RowY.na_sales).sum) := by
  have hks_nd : (sortAsc (yearKeys S)).Nodup :=
    ((sortAsc_perm (yearKeys S)).nodup_iff).mpr (List.nodup_dedup _)
  have hks_mem : ∀ y, y ∈ sortAsc (yearKeys S) ↔ y ∈ yearKeys S :=
    fun y => (sortAsc_perm (yearKeys S)).mem_iff
  have hcov : ∀ r ∈ S, r.year ∈ sortAsc (yearKeys S) := by
    intro r hr
    rw [hks_mem]
    exact List.mem_dedup.mpr (List.mem_map_of_mem RowY.year hr)
  have h1 : (yearly S).filterMap YearlyRow.na_total
      = (sortAsc (yearKeys S)).filterMap
          fun y => (sparkSum ((yearRows S y).map RowY.na_sales)).map round2 := by
    unfold yearly
    rw [filterMap_of_map]
  have h2 : ((sortAsc (yearKeys S)).map
      fun y => ((yearRows S y).filterMap RowY.na_sales).sum)
      = (sortAsc (yearKeys S)).map
        fun y => ((sparkSum ((yearRows S y).map RowY.na_sales)).map round2).getD 0 := by
    apply List.map_congr_left
    intro y hy
    rw [sparkSum_map]
    by_cases hemp : (yearRows S y).filterMap RowY.na_sales = []
    · rw [if_pos hemp, hemp]
      rfl
    · rw [if_neg hemp]
      show ((yearRows S y).filterMap RowY.na_sales).sum
          = round2 (((yearRows S y).filterMap RowY.na_sales).sum)
      exact (hex y ((hks_mem y).mp hy)).symm
  have h3 : ((sortAsc (yearKeys S)).map
      fun y => ((yearRows S y).filterMap RowY.na_sales).sum).sum
      = (S.filterMap RowY.na_sales).sum := by
    have hf := fiber_sum RowY.na_sales (sortAsc (yearKeys S)) S hks_nd hcov
    simpa [yearRows] using hf
  have h4 : round2 ((S.filterMap RowY.na_sales).sum) = (S.filterMap RowY.na_sales).sum := by
    rw [← h3]
    apply round2_fix_sum
    intro x hx
    rcases List.mem_map.mp hx with ⟨y, hy, rfl⟩
    exact hex y ((hks_mem y).mp hy)
  rw [h1, sum_filterMap_getD, ← h2, h3, h4]

/-- Claim C1: the spec requires a distinct NotFound/EmptyResultError when
the table is empty after the 2006-2015 filter.  The code has no such
path: `first()` returns `None` and `None["publisher"]` raises an
unhandled `TypeError`.  In the embedding the crash is the `none`
outcome, reached for every input whose filtered table is empty — no
distinct error condition exists in the code. -/
theorem c1_empty_filter_crash_not_distinct (rows : List Row)
    (h : sales0615 rows = []) : analyze_publisher_sales rows = none := by
  unfold analyze_publisher_sales
  rw [h]
  rfl

/-- Claim C1 witness: the empty input reaches the crash outcome. -/
theorem c1_empty_filter_crash_not_distinct_witness :
    analyze_publisher_sales [] = none :=
  c1_empty_filter_crash_not_distinct [] rfl

/-- Claim C2 counterexample: two inputs with identical returned values
have different missing-data counts, so `missing_count` is not part of
the function's output to the caller (it is only printed). -/
theorem c2_missing_count_not_returned_cex :
    analyze_returns c2rowsA = analyze_returns c2rowsB ∧
    (analyze_publisher_sales c2rowsA).map AnalysisOutput.titlesWithMissingSalesData
      = some 0 ∧
    (analyze_publisher_sales c2rowsB).map AnalysisOutput.titlesWithMissingSalesData
      = some 1 := by
  refine ⟨?_, ?_, ?_⟩
  · with_unfolding_all decide
  · with_unfolding_all decide
  · with_unfolding_all decide

/-- Claim C2 (amended): the Analyzer computes all three results, but its
output to the caller is the pair (best publisher, yearly table); the
missing-data count is printed, not returned. -/
theorem c2_returns_pair (rows : List Row) (out : AnalysisOutput)
    (h : analyze_publisher_sales rows = some out) :
    analyze_returns rows = some (out.bestNAPublisher, out.bestNAPublisherSales) := by
  unfold analyze_returns
  rw [h]
  rfl

/-- Claim C2 witness: the returned pair on a concrete input. -/
theorem c2_returns_pair_witness :
    analyze_returns c2rowsA = some (some "A", [⟨2010, some 5, some 5⟩]) :=
  c2_returns_pair c2rowsA ⟨some "A", 0, [⟨2010, some 5, some 5⟩]⟩
    (by with_unfolding_all decide)

/-- Claim C3 counterexample: on `c3rows` the code selects publisher A
(because B's all-null group has a null total, ranked last by the
descending sort), yet A's nulls-skipped sum (-1) is not maximal: B's
nulls-skipped sum is 0. -/
theorem c3_best_not_maximal_cex :
    analyze_publisher_sales c3rows
      = some ⟨some "A", 0, [⟨2010, some (-1), some (-1)⟩]⟩ ∧
    some "B" ∈ groupKeys (sales0615 c3rows) ∧
    specPubTotal (sales0615 c3rows) (some "A")
      < specPubTotal (sales0615 c3rows) (some "B") := by
  refine ⟨?_, ?_, ?_⟩
  · with_unfolding_all decide
  · with_unfolding_all decide
  · with_unfolding_all decide

/-- Claim C3 (amended): the selected best publisher is one of the group
keys, and among the publishers having at least one non-null `na_sales`
value in range its nulls-skipped total is maximal (a group all of whose
`na_sales` are null has a null SQL total and is ranked below every
non-null total, so it can win only when no non-null total exists). -/
theorem c3_best_maximal (rows : List Row) (out : AnalysisOutput)
    (h : analyze_publisher_sales rows = some out) :
    out.bestNAPublisher ∈ groupKeys (sales0615 rows) ∧
    ∀ p ∈ groupKeys (sales0615 rows),
      (∃ r ∈ pubRows (sales0615 rows) p, r.na_sales ≠ none) →
      specPubTotal (sales0615 rows) p
        ≤ specPubTotal (sales0615 rows) out.bestNAPublisher := by
  obtain ⟨b, hpick, hout⟩ := analyze_some rows out h
  subst hout
  constructor
  · exact pickTopAux_mem _ _ _ hpick
  · intro p hp hex
    have hmax := pickTopAux_max _ _ b hpick p hp
    have hne : (pubRows (sales0615 rows) p).filterMap RowY.na_sales ≠ [] := by
      obtain ⟨r, hr, hrs⟩ := hex
      cases hna : r.na_sales with
      | none => exact absurd hna hrs
      | some v =>
        intro hemp
        have hv : v ∈ (pubRows (sales0615 rows) p).filterMap RowY.na_sales :=
          List.mem_filterMap.mpr ⟨r, hr, by rw [hna]⟩
        rw [hemp] at hv
        exact List.not_mem_nil _ hv
    have hps : pubTotal (sales0615 rows) p
        = some (specPubTotal (sales0615 rows) p) := by
      unfold pubTotal specPubTotal
      rw [sparkSum_map, if_neg hne]
    cases hbt : pubTotal (sales0615 rows) b with
    | none =>
      rw [hps, hbt] at hmax
      exact absurd hmax (by simp [optLeNL])
    | some t =>
      have hbne : (pubRows (sales0615 rows) b).filterMap RowY.na_sales ≠ [] := by
        intro hemp
        unfold pubTotal at hbt
        rw [sparkSum_map, if_pos hemp] at hbt
        exact Option.noConfusion hbt
      have hbt' : pubTotal (sales0615 rows) b
          = some (specPubTotal (sales0615 rows) b) := by
        unfold pubTotal specPubTotal
        rw [sparkSum_map, if_neg hbne]
      rw [hps, hbt'] at hmax
      simp only [optLeNL, decide_eq_true_eq] at hmax
      exact hmax

/-- Claim C3 witness: on the spec's scenario the theorem yields
B's total (5) below A's total (30). -/
theorem c3_best_maximal_witness :
    specPubTotal (sales0615 c3wrows) (some "B")
      ≤ specPubTotal (sales0615 c3wrows) (some "A") := by
  have h := c3_best_maximal c3wrows
    ⟨some "A", 0, [⟨2007, some 10, some 10⟩, ⟨2008, some 20, some 20⟩]⟩
    (by with_unfolding_all decide)
  exact h.2 (some "B") (by with_unfolding_all decide)
    ⟨⟨some "B", 2009, some 5, some 5⟩, by with_unfolding_all decide,
      by with_unfolding_all decide⟩

/-- Claim C4: the window filter keeps exactly the rows whose release
year lies in 2006..2015 (null release dates excluded), and two inputs
with the same in-range rows produce the same best publisher and the
same yearly aggregates. -/
theorem c4_window_filter :
    (∀ rows : List Row, sales0615 rows = (rows.filter keepB).map toRowY) ∧
    (∀ rows1 rows2 : List Row, rows1.filter keepB = rows2.filter keepB →
      (analyze_publisher_sales rows1).map AnalysisOutput.bestNAPublisher
        = (analyze_publisher_sales rows2).map AnalysisOutput.bestNAPublisher ∧
      (analyze_publisher_sales rows1).map AnalysisOutput.bestNAPublisherSales
        = (analyze_publisher_sales rows2).map AnalysisOutput.bestNAPublisherSales) := by
  refine ⟨sales0615_eq, ?_⟩
  intro rows1 rows2 h12
  have he : sales0615 rows1 = sales0615 rows2 := by
    rw [sales0615_eq rows1, sales0615_eq rows2, h12]
  unfold analyze_publisher_sales
  rw [he]
  exact ⟨rfl, rfl⟩

/-- Claim C4 witness: adding an out-of-window record and a null-date
record changes neither the best publisher nor the yearly table. -/
theorem c4_window_filter_witness :
    sales0615 c4rowsA = (c4rowsA.filter keepB).map toRowY ∧
    (analyze_publisher_sales c4rowsA).map AnalysisOutput.bestNAPublisher
      = (analyze_publisher_sales c4rowsB).map AnalysisOutput.bestNAPublisher ∧
    (analyze_publisher_sales c4rowsA).map AnalysisOutput.bestNAPublisherSales
      = (analyze_publisher_sales c4rowsB).map AnalysisOutput.bestNAPublisherSales := by
  refine ⟨c4_window_filter.1 c4rowsA, ?_, ?_⟩
  · exact (c4_window_filter.2 c4rowsA c4rowsB (by with_unfolding_all decide)).1
  · exact (c4_window_filter.2 c4rowsA c4rowsB (by with_unfolding_all decide)).2

/-- Claim C5: the yearly table equals the spec's description — group the
best publisher's in-range rows by derived year, aggregate
round(sum(na_sales), 2) and round(sum(total_sales), 2) with nulls
skipped, ordered ascending by year. -/
theorem c5_yearly_refines_spec (rows : List Row) (out : AnalysisOutput)
    (h : analyze_publisher_sales rows = some out) :
    out.bestNAPublisherSales = yearlySpec (inRangeBest rows out.bestNAPublisher) ∧
    List.Sorted (· ≤ ·) (out.bestNAPublisherSales.map YearlyRow.year) := by
  obtain ⟨b, hpick, hout⟩ := analyze_some rows out h
  subst hout
  exact ⟨yearly_eq_yearlySpec _, yearly_sorted _⟩

/-- Claim C5 witness: the spec scenario with a null na_sales in 2010. -/
theorem c5_yearly_refines_spec_witness :
    ([⟨2010, none, some 15⟩, ⟨2011, some 7, some 8⟩] : List YearlyRow)
      = yearlySpec (inRangeBest c5rows (some "A")) ∧
    List.Sorted (· ≤ ·)
      (([⟨2010, none, some 15⟩, ⟨2011, some 7, some 8⟩] : List YearlyRow).map
        YearlyRow.year) :=
  c5_yearly_refines_spec c5rows
    ⟨some "A", 1, [⟨2010, none, some 15⟩, ⟨2011, some 7, some 8⟩]⟩
    (by with_unfolding_all decide)

/-- Claim C6: the missing-data count equals the number of rows of the
best publisher's in-range subset whose `na_sales` is null, and those
null rows contribute nothing to the sum aggregations: every `na_sales`
sum (the publisher total and each per-year total) is unchanged when the
null-`na_sales` rows are dropped. -/
theorem c6_missing_count (rows : List Row) (out : AnalysisOutput)
    (h : analyze_publisher_sales rows = some out) :
    out.titlesWithMissingSalesData
      = ((inRangeBest rows out.bestNAPublisher).filter
          fun r => decide (r.na_sales = none)).length ∧
    sparkSum ((inRangeBest rows out.bestNAPublisher).map RowY.na_sales)
      = sparkSum (((inRangeBest rows out.bestNAPublisher).filter
          fun r => r.na_sales.isSome).map RowY.na_sales) ∧
    ∀ y : Nat,
      sparkSum ((yearRows (inRangeBest rows out.bestNAPublisher) y).map
        RowY.na_sales)
        = sparkSum (((yearRows (inRangeBest rows out.bestNAPublisher) y).filter
            fun r => r.na_sales.isSome).map RowY.na_sales) := by
  obtain ⟨b, hpick, hout⟩ := analyze_some rows out h
  subst hout
  refine ⟨?_, sparkSum_keep_some _ _, fun y => sparkSum_keep_some _ _⟩
  show ((bestNADF_S (sales0615 rows) b).filter fun r => r.na_sales.isNone).length
      = ((bestNADF_S (sales0615 rows) b).filter
          fun r => decide (r.na_sales = none)).length
  congr 1
  apply List.filter_congr
  intro r hr
  cases hna : r.na_sales <;> simp [hna]

/-- Claim C6 witness: on the spec's null-handling scenario the count is
1 and dropping the null row keeps the sums. -/
theorem c6_missing_count_witness :
    (1 : Nat) = ((inRangeBest c6rows (some "A")).filter
        fun r => decide (r.na_sales = none)).length ∧
    sparkSum ((inRangeBest c6rows (some "A")).map RowY.na_sales)
      = sparkSum (((inRangeBest c6rows (some "A")).filter
          fun r => r.na_sales.isSome).map RowY.na_sales) := by
  have h := c6_missing_count c6rows
    ⟨some "A", 1, [⟨2010, none, some 15⟩, ⟨2011, some 7, some 8⟩]⟩
    (by with_unfolding_all decide)
  exact ⟨h.1, h.2.1⟩

/-- Claim C7 counterexample: with two publishers tied on total
North-American sales, both outcomes are valid runs of the analysis
(the engine's descending sort breaks the tie arbitrarily) and they
differ, so the computation is not deterministic on every input. -/
theorem c7_tie_nondeterminism_cex :
    RunsAnalysis c7rows (some ⟨some "A", 0, [⟨2010, some 3, some 3⟩]⟩) ∧
    RunsAnalysis c7rows (some ⟨some "B", 0, [⟨2010, some 3, some 3⟩]⟩) ∧
    (some (⟨some "A", 0, [⟨2010, some 3, some 3⟩]⟩ : AnalysisOutput)
      ≠ some (⟨some "B", 0, [⟨2010, some 3, some 3⟩]⟩ : AnalysisOutput)) := by
  refine ⟨Or.inr ⟨some "A", ?_, ?_⟩, Or.inr ⟨some "B", ?_, ?_⟩, ?_⟩
  · with_unfolding_all decide
  · with_unfolding_all decide
  · with_unfolding_all decide
  · with_unfolding_all decide
  · with_unfolding_all decide

/-- Claim C7 (amended): the analysis is deterministic whenever the
maximal publisher group is unique — any two runs on the same input
agree; with ties, the selected publisher (and hence the whole output)
may differ between runs. -/
theorem c7_deterministic_unless_tie (rows : List Row)
    (o1 o2 : Option AnalysisOutput)
    (h1 : RunsAnalysis rows o1) (h2 : RunsAnalysis rows o2)
    (huniq : ∀ b1 ∈ groupKeys (sales0615 rows), ∀ b2 ∈ groupKeys (sales0615 rows),
      isTopKeyB (sales0615 rows) b1 = true → isTopKeyB (sales0615 rows) b2 = true →
        b1 = b2) :
    o1 = o2 := by
  rcases h1 with ⟨hl1, ho1⟩ | ⟨b1, hb1, ho1⟩
  · rcases h2 with ⟨hl2, ho2⟩ | ⟨b2, hb2, ho2⟩
    · rw [ho1, ho2]
    · exfalso
      have hm := isTop_mem _ _ hb2
      rw [hl1] at hm
      simp [groupKeys] at hm
  · rcases h2 with ⟨hl2, ho2⟩ | ⟨b2, hb2, ho2⟩
    · exfalso
      have hm := isTop_mem _ _ hb1
      rw [hl2] at hm
      simp [groupKeys] at hm
    · have hb := huniq b1 (isTop_mem _ _ hb1) b2 (isTop_mem _ _ hb2) hb1 hb2
      subst hb
      rw [ho1, ho2]

/-- Claim C7 witness: with a single publisher the top group is unique,
so the deterministic run and an arbitrary valid run agree. -/
theorem c7_deterministic_unless_tie_witness :
    analyze_publisher_sales c7wrows
      = some ⟨some "A", 0, [⟨2010, some 3, some 3⟩]⟩ :=
  c7_deterministic_unless_tie c7wrows _ _ (runs_analyze c7wrows)
    (Or.inr ⟨some "A", by with_unfolding_all decide, by with_unfolding_all decide⟩)
    (by with_unfolding_all decide)

/-- Claim C8 counterexample: per-year rounding happens before the
summation over years, so with two years each summing to 0.005 the
yearly na_total values add to 0.02 while the rounded total of all
non-null na_sales is 0.01. -/
theorem c8_rounded_sum_mismatch_cex :
    analyze_publisher_sales c8rows = some c8out ∧
    yearlyNaTotalSum c8out
      ≠ round2 (((inRangeBest c8rows c8out.bestNAPublisher).filterMap
          RowY.na_sales).sum) := by
  refine ⟨?_, ?_⟩
  · with_unfolding_all decide
  · with_unfolding_all decide

/-- Claim C8 (amended): when every per-year sum of the best publisher's
non-null na_sales is already exact at two decimals (so per-year rounding
is the identity), the sum of na_total over all years equals the sum of
the non-null na_sales values over all in-range rows of the best
publisher, rounded to two decimals.  In general the two differ, because
the code rounds per year before summing. -/
theorem c8_sum_consistency (rows : List Row) (out : AnalysisOutput)
    (h : analyze_publisher_sales rows = some out)
    (hex : ∀ y ∈ yearKeys (inRangeBest rows out.bestNAPublisher),
      round2 (((yearRows (inRangeBest rows out.bestNAPublisher) y).filterMap
          RowY.na_sales).sum)
        = ((yearRows (inRangeBest rows out.bestNAPublisher) y).filterMap
            RowY.na_sales).sum) :
    yearlyNaTotalSum out
      = round2 (((inRangeBest rows out.bestNAPublisher).filterMap
          RowY.na_sales).sum) := by
  obtain ⟨b, hpick, hout⟩ := analyze_some rows out h
  subst hout
  exact yearly_na_sum (bestNADF_S (sales0615 rows) b) hex

/-- Claim C8 witness: with per-year sums 0.25 and 0.75 the identity
holds. -/
theorem c8_sum_consistency_witness :
    yearlyNaTotalSum
      ⟨some "A", 0,
       [⟨2010, some (1 / 4), some (1 / 4)⟩, ⟨2011, some (3 / 4), some (3 / 4)⟩]⟩
      = round2 (((inRangeBest c8wrows (some "A")).filterMap RowY.na_sales).sum) :=
  c8_sum_consistency c8wrows
    ⟨some "A", 0,
     [⟨2010, some (1 / 4), some (1 / 4)⟩, ⟨2011, some (3 / 4), some (3 / 4)⟩]⟩
    (by with_unfolding_all decide) (by with_unfolding_all decide)

/-- Claim C9: when the selected best publisher is the null key (the top
group's publisher is null), the equality filter matches no row — not
even the rows whose publisher is null — so the result is empty: zero
yearly aggregates and a missing count of 0. -/
theorem c9_null_best_empty_result (rows : List Row) (out : AnalysisOutput)
    (h : analyze_publisher_sales rows = some out)
    (hb : out.bestNAPublisher = none) :
    out.titlesWithMissingSalesData = 0 ∧ out.bestNAPublisherSales = [] := by
  obtain ⟨b, hpick, hout⟩ := analyze_some rows out h
  subst hout
  have hb' : b = none := hb
  subst hb'
  exact ⟨rfl, rfl⟩

/-- Claim C9 witness: a table whose only rows have a null publisher
selects the null key and yields the empty result. -/
theorem c9_null_best_empty_result_witness :
    (⟨none, 0, []⟩ : AnalysisOutput).titlesWithMissingSalesData = 0 ∧
    (⟨none, 0, []⟩ : AnalysisOutput).bestNAPublisherSales = [] :=
  c9_null_best_empty_result c9rows ⟨none, 0, []⟩
    (by with_unfolding_all decide) rfl

/-- Claim C10: a year of the best publisher's subset in which every
na_sales value is null still appears in the yearly table with a null
na_total (not 0.0); likewise a year in which every total_sales value is
null still appears, with a null global_total. -/
theorem c10_all_null_year_null_total (rows : List Row) (out : AnalysisOutput)
    (y : Nat) (h : analyze_publisher_sales rows = some out)
    (hy : y ∈ yearKeys (inRangeBest rows out.bestNAPublisher)) :
    ((∀ r ∈ yearRows (inRangeBest rows out.bestNAPublisher) y,
        r.na_sales = none) →
      ∃ g, YearlyRow.mk y none g ∈ out.bestNAPublisherSales) ∧
    ((∀ r ∈ yearRows (inRangeBest rows out.bestNAPublisher) y,
        r.total_sales = none) →
      ∃ n, YearlyRow.mk y n none ∈ out.bestNAPublisherSales) := by
  obtain ⟨b, hpick, hout⟩ := analyze_some rows out h
  subst hout
  have hy' : y ∈ yearKeys (bestNADF_S (sales0615 rows) b) := hy
  have hys : y ∈ sortAsc (yearKeys (bestNADF_S (sales0615 rows) b)) :=
    ((sortAsc_perm _).mem_iff).mpr hy'
  have hm := List.mem_map_of_mem
    (fun y => (⟨y,
      (sparkSum ((yearRows (bestNADF_S (sales0615 rows) b) y).map
        RowY.na_sales)).map round2,
      (sparkSum ((yearRows (bestNADF_S (sales0615 rows) b) y).map
        RowY.total_sales)).map round2⟩ : YearlyRow)) hys
  constructor
  · intro hnull
    have hnull' : ∀ r ∈ yearRows (bestNADF_S (sales0615 rows) b) y,
        r.na_sales = none := hnull
    have hnone : sparkSum ((yearRows (bestNADF_S (sales0615 rows) b) y).map
        RowY.na_sales) = none := by
      apply sparkSum_eq_none
      intro x hx
      rcases List.mem_map.mp hx with ⟨r, hr, rfl⟩
      exact hnull' r hr
    refine ⟨(sparkSum ((yearRows (bestNADF_S (sales0615 rows) b) y).map
        RowY.total_sales)).map round2, ?_⟩
    show _ ∈ yearly (bestNADF_S (sales0615 rows) b)
    unfold yearly
    simp only [hnone, Option.map_none'] at hm
    exact hm
  · intro hnull
    have hnull' : ∀ r ∈ yearRows (bestNADF_S (sales0615 rows) b) y,
        r.total_sales = none := hnull
    have hnone : sparkSum ((yearRows (bestNADF_S (sales0615 rows) b) y).map
        RowY.total_sales) = none := by
      apply sparkSum_eq_none
      intro x hx
      rcases List.mem_map.mp hx with ⟨r, hr, rfl⟩
      exact hnull' r hr
    refine ⟨(sparkSum ((yearRows (bestNADF_S (sales0615 rows) b) y).map
        RowY.na_sales)).map round2, ?_⟩
    show _ ∈ yearly (bestNADF_S (sales0615 rows) b)
    unfold yearly
    simp only [hnone, Option.map_none'] at hm
    exact hm

/-- Claim C10 witness: 2010 (all na_sales null, total 15) appears as
(2010, null, 15.0) and 2011 (all total_sales null, na 7) appears as
(2011, 7.0, null). -/
theorem c10_all_null_year_null_total_witness :
    (∃ g, YearlyRow.mk 2010 none g
      ∈ (⟨some "A", 1, [⟨2010, none, some 15⟩, ⟨2011, some 7, none⟩]⟩
          : AnalysisOutput).bestNAPublisherSales) ∧
    (∃ n, YearlyRow.mk 2011 n none
      ∈ (⟨some "A", 1, [⟨2010, none, some 15⟩, ⟨2011, some 7, none⟩]⟩
          : AnalysisOutput).bestNAPublisherSales) :=
  ⟨(c10_all_null_year_null_total c10rows
      ⟨some "A", 1, [⟨2010, none, some 15⟩, ⟨2011, some 7, none⟩]⟩ 2010
      (by with_unfolding_all decide) (by with_unfolding_all decide)).1
    (by with_unfolding_all decide),
   (c10_all_null_year_null_total c10rows
      ⟨some "A", 1, [⟨2010, none, some 15⟩, ⟨2011, some 7, none⟩]⟩ 2011
      (by with_unfolding_all decide) (by with_unfolding_all decide)).2
    (by with_unfolding_all decide)⟩
